import Mathlib

/-!
Shallow embedding of the postmaster-general-core transport base class
(lib/transport.js and lib/errors.js): the timing aggregator, the envelope
processor used by publish/request, the handler instrumentation wrapper,
the lifecycle state, and the constructor validation. Definitions follow
the JavaScript source line by line; JavaScript dynamic values are modelled
by the small inductive JsVal, and thrown TypeErrors by Except.
-/

/-- A JavaScript value as far as the transport code inspects one:
`undefined`, a string, an integer number, a non-integer number, a
function, or some other object. The code only ever tests
`typeof x === "string"`, `typeof x === "undefined"`,
`typeof x === "function"` and `Number.isInteger(x)`. -/
inductive JsVal where
  | undef : JsVal
  | str : String → JsVal
  | num : Int → JsVal
  | nonIntNum : JsVal
  | func : JsVal
  | obj : JsVal
  deriving DecidableEq, Repr

/-- Whether `typeof v === "string"` holds. -/
def JsVal.isString : JsVal → Bool
  | .str _ => true
  | _ => false

/-- Whether `Number.isInteger(v)` holds (our integer numbers only). -/
def JsVal.isInteger : JsVal → Bool
  | .num _ => true
  | _ => false

/-- The only error kind the base class throws synchronously. -/
inductive JsError where
  | typeError : String → JsError
  deriving DecidableEq, Repr

/-- One per-topic timing record, as created and mutated by recordTiming. -/
structure TimingRecord where
  messageCount : Nat
  elapsedTime : Int
  minElapsedTime : Int
  maxElapsedTime : Int
  deriving DecidableEq, Repr

/-- The record a topic starts with on its first observation: all fields zero. -/
def zeroRecord : TimingRecord :=
  { messageCount := 0, elapsedTime := 0, minElapsedTime := 0, maxElapsedTime := 0 }

/-- The timing table `this.timings`: a JavaScript object keyed by topic,
modelled as an association list with unique keys. -/
abbrev Timings : Type := List (String × TimingRecord)

/-- Property read `timings[topic]`. -/
def tlookup : Timings → String → Option TimingRecord
  | [], _ => none
  | (k, v) :: rest, key => if k = key then some v else tlookup rest key

/-- Property write `timings[topic] = v`. -/
def tset : Timings → String → TimingRecord → Timings
  | [], key, v => [(key, v)]
  | (k, w) :: rest, key, v =>
      if k = key then (key, v) :: rest else (k, w) :: tset rest key v

/-- Property removal `delete timings[topic]` (on a well-formed object the
key occurs at most once; removing every occurrence is the same thing). -/
def terase : Timings → String → Timings
  | [], _ => []
  | (k, v) :: rest, key =>
      if k = key then terase rest key else (k, v) :: terase rest key

theorem tlookup_tset (ts : Timings) (key k : String) (v : TimingRecord) :
    tlookup (tset ts key v) k = if k = key then some v else tlookup ts k := by
  induction ts with
  | nil =>
      by_cases h : k = key
      · subst h; simp [tset, tlookup]
      · simp [tset, tlookup, h, Ne.symm h]
  | cons hd tl ih =>
      obtain ⟨k0, v0⟩ := hd
      by_cases h0 : k0 = key
      · subst h0
        by_cases h : k = k0
        · subst h; simp [tset, tlookup]
        · simp [tset, tlookup, h, Ne.symm h]
      · by_cases h : k = k0
        · subst h
          simp [tset, tlookup, h0]
        · simp [tset, tlookup, h0, h, Ne.symm h, ih]

theorem tlookup_terase (ts : Timings) (key k : String) :
    tlookup (terase ts key) k = if k = key then none else tlookup ts k := by
  induction ts with
  | nil => simp [terase, tlookup]
  | cons hd tl ih =>
      obtain ⟨k0, v0⟩ := hd
      by_cases h0 : k0 = key
      · subst h0
        by_cases h : k = k0
        · subst h; simp [terase, tlookup, ih]
        · simp [terase, tlookup, h, Ne.symm h, ih]
      · by_cases h : k = k0
        · subst h
          simp [terase, tlookup, h0, ih, Ne.symm h0]
        · simp [terase, tlookup, h0, h, Ne.symm h, ih]

theorem terase_of_absent (ts : Timings) (key : String)
    (h : tlookup ts key = none) : terase ts key = ts := by
  induction ts with
  | nil => simp [terase]
  | cons hd tl ih =>
      obtain ⟨k0, v0⟩ := hd
      by_cases h0 : k0 = key
      · subst h0
        simp [tlookup] at h
      · simp [tlookup, h0] at h
        simp [terase, h0, ih h]

/-- The body of recordTiming applied to one record: increment
`messageCount`, add `elapsed` to `elapsedTime`, then the guarded min and
max updates, exactly as in the source (the min guard also fires when the
stored minimum is the 0 sentinel). -/
def recordStep (r : TimingRecord) (elapsed : Int) : TimingRecord :=
  let r1 := { r with messageCount := r.messageCount + 1,
                     elapsedTime := r.elapsedTime + elapsed }
  let r2 := if r1.minElapsedTime > elapsed ∨ r1.minElapsedTime = 0
            then { r1 with minElapsedTime := elapsed } else r1
  if r2.maxElapsedTime < elapsed then { r2 with maxElapsedTime := elapsed } else r2

/-- `recordTiming(topic, start)` after its validation: computes
`elapsed = now - start`, creates the record with all fields zero if the
topic is absent, and applies the update. `now` is the clock reading
`new Date().getTime()` passed explicitly. -/
def recordTiming (ts : Timings) (topic : String) (start now : Int) : Timings :=
  let elapsed := now - start
  tset ts topic (recordStep ((tlookup ts topic).getD zeroRecord) elapsed)

/-- `recordTiming` including its argument validation: topic must be a
string and start an integer, otherwise a TypeError is thrown. -/
def recordTimingChecked (ts : Timings) (topic start : JsVal) (now : Int) :
    Except JsError Timings :=
  match topic with
  | .str t =>
      match start with
      | .num s => .ok (recordTiming ts t s now)
      | _ => .error (.typeError "start should be a number.")
  | _ => .error (.typeError "topic should be a string.")

theorem tlookup_recordTiming_self (ts : Timings) (topic : String) (start now : Int) :
    tlookup (recordTiming ts topic start now) topic =
      some (recordStep ((tlookup ts topic).getD zeroRecord) (now - start)) := by
  simp [recordTiming, tlookup_tset]

/-- One lowercase hex digit (0..15). -/
def hexChar (n : Nat) : Char :=
  if n < 10 then Char.ofNat (48 + n) else Char.ofNat (87 + n)

/-- The two lowercase hex digits of one byte. -/
def byteHex (b : Nat) : List Char :=
  [hexChar (b / 16 % 16), hexChar (b % 16)]

/-- Modelled from the spec: the uuid/v4 generator the envelope processor
requires is an external package, not among these sources; per the spec it
yields "a fresh globally-unique identifier (e.g., a random UUID)". We
model RFC 4122 version 4 formatting of 16 random bytes: version and
variant bits forced, bytes rendered as hex in the 8-4-4-4-12 layout. -/
def uuidv4 (bytes : List Nat) : String :=
  let b := fun (i : Nat) => bytes.getD i 0 % 256
  let dash := Char.ofNat 45
  String.mk (byteHex (b 0) ++ byteHex (b 1) ++ byteHex (b 2) ++ byteHex (b 3) ++
    [dash] ++ byteHex (b 4) ++ byteHex (b 5) ++
    [dash] ++ byteHex (b 6 % 16 + 64) ++ byteHex (b 7) ++
    [dash] ++ byteHex (b 8 % 64 + 128) ++ byteHex (b 9) ++
    [dash] ++ byteHex (b 10) ++ byteHex (b 11) ++ byteHex (b 12) ++
    byteHex (b 13) ++ byteHex (b 14) ++ byteHex (b 15))

theorem uuidv4_ne_empty (bytes : List Nat) : uuidv4 bytes ≠ "" := by
  intro h
  have h2 := congrArg String.data h
  simp [uuidv4, byteHex] at h2

theorem isString_str (s : String) : (JsVal.str s).isString = true := rfl

theorem isString_undef : JsVal.undef.isString = false := rfl

theorem isString_num (n : Int) : (JsVal.num n).isString = false := rfl

theorem isString_nonIntNum : JsVal.nonIntNum.isString = false := rfl

theorem isString_func : JsVal.func.isString = false := rfl

theorem isString_obj : JsVal.obj.isString = false := rfl

attribute [simp] isString_str isString_undef isString_num isString_nonIntNum
attribute [simp] isString_func isString_obj

/-- The options object passed to publish/request, restricted to the two
fields the code reads, validates and possibly mutates. -/
structure MsgOptions where
  correlationId : JsVal
  initiator : JsVal
  deriving DecidableEq, Repr

/-- String payload of a JsVal known to be a string. -/
def jsStrGet : JsVal → String
  | .str s => s
  | _ => ""

/-- processMessage: validates routingKey, options.correlationId and
options.initiator; when no correlation id was supplied it generates one
and writes it into the options object; returns the correlation id. The
result pairs the caller-visible options object after the call (none when
the caller passed no object, in which case the generated id lands in a
fresh local object) with the returned id. The fresh parameter stands for
the one random uuidv4() draw the function may make. -/
def processMessage (routingKey : JsVal) (_message : JsVal)
    (callerOptions : Option MsgOptions) (fresh : String) :
    Except JsError (Option MsgOptions × String) :=
  let options := callerOptions.getD { correlationId := .undef, initiator := .undef }
  if ¬routingKey.isString then
    .error (.typeError "routingKey should be a string.")
  else if options.correlationId ≠ .undef ∧ ¬options.correlationId.isString then
    .error (.typeError "options.correlationId should be a string.")
  else if options.initiator ≠ .undef ∧ ¬options.initiator.isString then
    .error (.typeError "options.initiator should be a string.")
  else
    let options2 := if options.correlationId = .undef
                    then { options with correlationId := .str fresh }
                    else options
    .ok (callerOptions.map (fun _ => options2), jsStrGet options2.correlationId)

/-- publish delegates to processMessage and resolves to its result. -/
def publish (routingKey message : JsVal) (options : Option MsgOptions)
    (fresh : String) : Except JsError (Option MsgOptions × String) :=
  processMessage routingKey message options fresh

/-- request delegates to processMessage and resolves to its result. -/
def request (routingKey message : JsVal) (options : Option MsgOptions)
    (fresh : String) : Except JsError (Option MsgOptions × String) :=
  processMessage routingKey message options fresh

/-- A duck-typed logger: the set of level names for which it exposes a
method (those level strings for which logger[level] is truthy). -/
structure Logger where
  levels : List String
  deriving DecidableEq, Repr

/-- The state of a Transport instance, restricted to the fields the
claims concern. The pending periodic reset timer is modelled by the delay
it was armed with (none when no timer is pending). -/
structure Transport where
  timings : Timings
  listening : Bool
  timingsResetInterval : Int
  timingsTimeout : Option Int
  logger : Option Logger
  deriving DecidableEq, Repr

/-- Modelled from the spec: the package-level default for
timingsResetInterval; the defaults module the constructor requires is not
among these sources, and the spec fixes only that it is a package-level
integer default in milliseconds. -/
def defaults_timingsResetInterval : Int := 60000

/-- The construction options recognized by the Transport constructor. -/
structure ConstructOptions where
  timingsResetInterval : JsVal
  logger : Option Logger
  deriving DecidableEq, Repr

/-- JavaScript `v || d` for v known to be undefined or a number: 0 and
undefined are falsy and give the default. -/
def jsNumOr (v : JsVal) (d : Int) : Int :=
  match v with
  | .num n => if n = 0 then d else n
  | _ => d

/-- The Transport constructor: throws a TypeError when a defined
options.timingsResetInterval fails Number.isInteger, and otherwise
initializes the fields, the interval falling back to the package default
through the || operator. -/
def Transport.construct (options : Option ConstructOptions) : Except JsError Transport :=
  let opts := options.getD { timingsResetInterval := .undef, logger := none }
  if opts.timingsResetInterval ≠ .undef ∧ ¬opts.timingsResetInterval.isInteger then
    .error (.typeError "options.timingsResetInterval should be a number.")
  else
    .ok { timings := [], listening := false,
          timingsResetInterval := jsNumOr opts.timingsResetInterval defaults_timingsResetInterval,
          timingsTimeout := none,
          logger := opts.logger }

/-- resetTimings: clears the whole timing table and, while still
listening, arms the pending reset timer with delay timingsResetInterval. -/
def Transport.resetTimings (t : Transport) : Transport :=
  let t1 := { t with timings := [] }
  if t1.listening then { t1 with timingsTimeout := some t1.timingsResetInterval } else t1

/-- listen: sets the listening flag and calls resetTimings immediately,
which also arms the periodic timer since listening now holds. -/
def Transport.listen (t : Transport) : Transport :=
  Transport.resetTimings { t with listening := true }

/-- disconnect: clears the listening flag and cancels any pending reset
timer; it never fails, also on a fresh or already disconnected instance. -/
def Transport.disconnect (t : Transport) : Except JsError Transport :=
  .ok { t with listening := false, timingsTimeout := none }

/-- One firing of the pending periodic reset timer: enabled only while a
timer is pending; consumes it and runs resetTimings, which re-arms the
next firing only while still listening. -/
def fireResetTimer (t : Transport) : Option Transport :=
  match t.timingsTimeout with
  | some _ => some (Transport.resetTimings { t with timingsTimeout := none })
  | none => none

/-- resolveTopic: the identity on strings, TypeError otherwise. -/
def resolveTopic (routingKey : JsVal) : Except JsError String :=
  match routingKey with
  | .str s => .ok s
  | _ => .error (.typeError "routingKey should be a string.")

/-- removeMessageListener: validates the routing key, resolves the topic
(the identity after the string check) and deletes its timing record. -/
def Transport.removeMessageListener (t : Transport) (routingKey : JsVal) :
    Except JsError Transport :=
  match routingKey with
  | .str rk => .ok { t with timings := terase t.timings rk }
  | _ => .error (.typeError "routingKey should be a string.")

/-- The validation and topic resolution of addMessageListener: the
returned wrapped handler closes over the resolved topic, and its per
invocation behavior is runWrappedHandler below. -/
def addMessageListener (routingKey callback : JsVal) : Except JsError String :=
  match routingKey with
  | .str rk =>
      match callback with
      | .func => .ok rk
      | _ => .error (.typeError "callback should be a function that returns a Promise.")
  | _ => .error (.typeError "routingKey should be a string.")

/-- An error thrown by a user callback, as far as the wrapper inspects
it: an identifying message and the optional logLevel hint (a string when
the property is set, none when absent). -/
structure HandlerError where
  message : String
  logLevel : Option String
  deriving DecidableEq, Repr

/-- err.logLevel || "error": the default applies when the hint is absent
(and for the falsy empty string). -/
def effectiveLogLevel (err : HandlerError) : String :=
  match err.logLevel with
  | some s => if s = "" then "error" else s
  | none => "error"

/-- The guard this._logger and logLevel different from "none" and
this._logger[logLevel] truthy. -/
def shouldLog (logger : Option Logger) (level : String) : Bool :=
  match logger with
  | some lg => decide (level ≠ "none") && lg.levels.contains level
  | none => false

/-- The outcome of one invocation of the user callback: a resolved result
or a thrown/rejected error. -/
inductive CallbackOutcome (α : Type) where
  | success : α → CallbackOutcome α
  | failure : HandlerError → CallbackOutcome α
  deriving DecidableEq, Repr

/-- The trace of one invocation of the wrapped handler: the calls made to
the user callback with their arguments, the timing table afterwards, the
log invocations performed, and the handler result. -/
structure HandlerRun (α : Type) where
  calls : List (JsVal × JsVal × JsVal)
  timings : Timings
  logged : List (String × JsVal × HandlerError)
  result : Except HandlerError α
  deriving Repr

/-- One invocation of the wrapped handler produced by addMessageListener:
capture start, invoke the callback once with exactly the given arguments,
record timing for the topic regardless of outcome; on failure, log
through the configured logger at the effective level unless suppressed,
then rethrow the same error; on success return the callback result
unchanged. The now parameter is the clock reading when the callback
completes. -/
def runWrappedHandler (t : Transport) (topic : String)
    (cb : JsVal → JsVal → JsVal → CallbackOutcome α)
    (msg correlationId initiator : JsVal) (start now : Int) : HandlerRun α :=
  match cb msg correlationId initiator with
  | .success res =>
      { calls := [(msg, correlationId, initiator)]
        timings := recordTiming t.timings topic start now
        logged := []
        result := .ok res }
  | .failure err =>
      let level := effectiveLogLevel err
      { calls := [(msg, correlationId, initiator)]
        timings := recordTiming t.timings topic start now
        logged := if shouldLog t.logger level then [(level, msg, err)] else []
        result := .error err }

theorem recordStep_messageCount (r : TimingRecord) (e : Int) :
    (recordStep r e).messageCount = r.messageCount + 1 := by
  simp only [recordStep]
  split_ifs <;> rfl

theorem recordStep_elapsedTime (r : TimingRecord) (e : Int) :
    (recordStep r e).elapsedTime = r.elapsedTime + e := by
  simp only [recordStep]
  split_ifs <;> rfl

theorem recordStep_minElapsedTime (r : TimingRecord) (e : Int) :
    (recordStep r e).minElapsedTime =
      if r.minElapsedTime > e ∨ r.minElapsedTime = 0 then e else r.minElapsedTime := by
  simp only [recordStep]
  split_ifs <;> simp_all

theorem recordStep_maxElapsedTime (r : TimingRecord) (e : Int) :
    (recordStep r e).maxElapsedTime =
      if r.maxElapsedTime < e then e else r.maxElapsedTime := by
  simp only [recordStep]
  split_ifs <;> simp_all

/-- C1: zero-sentinel minimum. Whenever an observation with elapsed 0
creates or leaves minElapsedTime equal to 0 (which recordTiming does
whenever the stored minimum was not already negative), a later
observation on the same topic with strictly positive elapsed overwrites
minElapsedTime with that later value: the stored 0 is treated as the
unset sentinel on every comparison. -/
theorem C1_zero_sentinel_overwrite (ts : Timings) (topic : String)
    (s start2 now2 : Int)
    (hmin : 0 ≤ ((tlookup ts topic).getD zeroRecord).minElapsedTime)
    (_hpos : 0 < now2 - start2) :
    ((tlookup (recordTiming ts topic s s) topic).getD zeroRecord).minElapsedTime = 0 ∧
    ((tlookup (recordTiming (recordTiming ts topic s s) topic start2 now2) topic).getD
        zeroRecord).minElapsedTime = now2 - start2 := by
  have h1 : tlookup (recordTiming ts topic s s) topic =
      some (recordStep ((tlookup ts topic).getD zeroRecord) 0) := by
    simpa using tlookup_recordTiming_self ts topic s s
  have hm1 : (recordStep ((tlookup ts topic).getD zeroRecord) 0).minElapsedTime = 0 := by
    rw [recordStep_minElapsedTime]
    rcases lt_or_eq_of_le hmin with h | h
    · simp [h]
    · simp [← h]
  refine ⟨by rw [h1]; simpa using hm1, ?_⟩
  have h2 := tlookup_recordTiming_self (recordTiming ts topic s s) topic start2 now2
  rw [h2, h1]
  simp only [Option.getD_some]
  rw [recordStep_minElapsedTime, hm1]
  simp

/-- Witness for C1 at a concrete input: elapsed 0 then elapsed 7 on topic
t leaves minElapsedTime equal to 7. -/
theorem C1_zero_sentinel_overwrite_witness :
    (0 : Int) < 7 - 0 ∧
    ((tlookup (recordTiming (recordTiming [] "t" 5 5) "t" 0 7) "t").getD
        zeroRecord).minElapsedTime = 7 - 0 :=
  ⟨by decide, (C1_zero_sentinel_overwrite [] "t" 5 0 7 (by decide) (by decide)).2⟩

/-- C2: timing aggregation arithmetic. Each recordTiming call increments
messageCount, adds elapsed to elapsedTime, sets minElapsedTime on the
first observation or when elapsed is strictly below the stored minimum,
and sets maxElapsedTime when elapsed is strictly above the stored
maximum; a first call with non-negative elapsed e yields the record
(1, e, e, e), and two calls with elapsed 10 then 5 yield count 2,
elapsedTime 15, min 5, max 10. -/
theorem C2_recordTiming_arithmetic (r : TimingRecord) (e : Int)
    (ts : Timings) (topic : String) :
    ((recordStep r e).messageCount = r.messageCount + 1) ∧
    ((recordStep r e).elapsedTime = r.elapsedTime + e) ∧
    ((recordStep zeroRecord e).minElapsedTime = e) ∧
    (e < r.minElapsedTime → (recordStep r e).minElapsedTime = e) ∧
    (r.maxElapsedTime < e → (recordStep r e).maxElapsedTime = e) ∧
    (tlookup ts topic = none → 0 ≤ e →
      tlookup (recordTiming ts topic 0 e) topic =
        some { messageCount := 1, elapsedTime := e,
               minElapsedTime := e, maxElapsedTime := e }) ∧
    (tlookup (recordTiming (recordTiming [] "t" 0 10) "t" 0 5) "t" =
      some { messageCount := 2, elapsedTime := 15,
             minElapsedTime := 5, maxElapsedTime := 10 }) := by
  refine ⟨recordStep_messageCount r e, recordStep_elapsedTime r e, ?_, ?_, ?_, ?_, ?_⟩
  · rw [recordStep_minElapsedTime]; simp [zeroRecord]
  · intro h
    rw [recordStep_minElapsedTime]
    simp [h]
  · intro h
    rw [recordStep_maxElapsedTime]
    simp [h]
  · intro habs hnn
    rw [tlookup_recordTiming_self, habs]
    simp only [Option.getD_none]
    rcases lt_or_eq_of_le hnn with h | h
    · simp [recordStep, zeroRecord, h, le_of_lt h]
    · simp [recordStep, zeroRecord, ← h]
  · decide

/-- Witness for C2 at a concrete input: a single observation with elapsed
3 on a fresh table yields the record (1, 3, 3, 3). -/
theorem C2_recordTiming_arithmetic_witness :
    tlookup (recordTiming [] "t" 0 3) "t" =
      some { messageCount := 1, elapsedTime := 3,
             minElapsedTime := 3, maxElapsedTime := 3 } :=
  (C2_recordTiming_arithmetic zeroRecord 3 [] "t").2.2.2.2.2.1 (by decide) (by decide)

/-- C10 counterexample: the negative elapsed value does not always become
the new minElapsedTime. Two backwards-clock observations on topic t with
elapsed -10 then -5: the second negative elapsed leaves the stored
minimum at -10 instead of becoming the new minimum, because the stored
minimum is already below it and is not the 0 sentinel. -/
theorem C10_counterexample :
    ((tlookup (recordTiming (recordTiming [] "t" 10 0) "t" 5 0) "t").getD
        zeroRecord).minElapsedTime = -10 ∧ (-10 : Int) ≠ 0 - 5 := by
  constructor
  · decide
  · decide

/-- C10 amended: no clock-sanity guard in timing. For start strictly
greater than the clock reading now, recordTiming succeeds without error;
the negative elapsed is added to elapsedTime, strictly decreasing the
running sum; it becomes the new minElapsedTime whenever the stored
minimum is non-negative (in particular the 0 sentinel of a fresh record,
or any minimum produced by non-negative observations) - though not when
a previously stored minimum is already smaller - and maxElapsedTime is
unchanged (0) on a fresh record. -/
theorem C10_negative_elapsed (ts : Timings) (topic : String) (start now : Int)
    (h : now < start) :
    (recordTimingChecked ts (.str topic) (.num start) now =
      .ok (recordTiming ts topic start now)) ∧
    (((tlookup (recordTiming ts topic start now) topic).getD zeroRecord).elapsedTime =
      ((tlookup ts topic).getD zeroRecord).elapsedTime + (now - start)) ∧
    (((tlookup (recordTiming ts topic start now) topic).getD zeroRecord).elapsedTime <
      ((tlookup ts topic).getD zeroRecord).elapsedTime) ∧
    (0 ≤ ((tlookup ts topic).getD zeroRecord).minElapsedTime →
      ((tlookup (recordTiming ts topic start now) topic).getD
          zeroRecord).minElapsedTime = now - start) ∧
    (tlookup ts topic = none →
      ((tlookup (recordTiming ts topic start now) topic).getD
          zeroRecord).maxElapsedTime = 0) := by
  have hneg : now - start < 0 := by omega
  have hl := tlookup_recordTiming_self ts topic start now
  refine ⟨rfl, ?_, ?_, ?_, ?_⟩
  · rw [hl]
    simp [recordStep_elapsedTime]
  · rw [hl]
    simp only [Option.getD_some, recordStep_elapsedTime]
    omega
  · intro hmin
    rw [hl]
    simp only [Option.getD_some]
    rw [recordStep_minElapsedTime]
    have : ((tlookup ts topic).getD zeroRecord).minElapsedTime > now - start := by omega
    simp [this]
  · intro habs
    rw [hl, habs]
    simp only [Option.getD_none, Option.getD_some]
    rw [recordStep_maxElapsedTime]
    simp only [zeroRecord]
    omega

/-- Witness for C10 amended at a concrete input: start 10 with clock
reading 0 succeeds and the fresh record gets minElapsedTime -10. -/
theorem C10_negative_elapsed_witness :
    recordTimingChecked [] (.str "t") (.num 10) 0 = .ok (recordTiming [] "t" 10 0) ∧
    ((tlookup (recordTiming [] "t" 10 0) "t").getD zeroRecord).minElapsedTime = 0 - 10 :=
  ⟨(C10_negative_elapsed [] "t" 10 0 (by decide)).1,
   (C10_negative_elapsed [] "t" 10 0 (by decide)).2.2.2.1 (by decide)⟩

/-- C3 counterexample: processMessage is not free of side effects on the
caller-supplied options object. Called with options that lack a
correlation id, it writes the generated id into that object: the
caller-visible options after the call differ from the options passed
in. -/
theorem C3_counterexample :
    processMessage (.str "bob") .undef
        (some { correlationId := .undef, initiator := .undef }) "u" =
      .ok (some { correlationId := .str "u", initiator := .undef }, "u") ∧
    ({ correlationId := .str "u", initiator := .undef } : MsgOptions) ≠
      { correlationId := .undef, initiator := .undef } := by
  exact ⟨rfl, by decide⟩

/-- C3 amended: envelope-processor effects. processMessage returns the
correlation id and is pure apart from randomness except for exactly one
caller-visible effect: when options.correlationId is absent, the
generated id is written into the caller-supplied options object. When a
correlation id is supplied the options object is left unchanged, and
when no options object is passed at all there is no caller-visible
mutation (the generated id lands in a fresh local object); the message
is never touched. -/
theorem C3_processMessage_effects (rk : String) (msg : JsVal) (opts : MsgOptions)
    (fresh : String)
    (hinit : opts.initiator = .undef ∨ opts.initiator.isString = true) :
    (∀ c, opts.correlationId = .str c →
      processMessage (.str rk) msg (some opts) fresh = .ok (some opts, c)) ∧
    (opts.correlationId = .undef →
      processMessage (.str rk) msg (some opts) fresh =
        .ok (some { opts with correlationId := .str fresh }, fresh)) ∧
    (processMessage (.str rk) msg none fresh = .ok (none, fresh)) := by
  refine ⟨?_, ?_, ?_⟩
  · intro c hc
    rcases hinit with h | h <;>
      simp [processMessage, hc, h, jsStrGet]
  · intro hc
    rcases hinit with h | h <;>
      simp [processMessage, hc, h, jsStrGet]
  · simp [processMessage, jsStrGet]

/-- Witness for C3 amended at a concrete input: a supplied correlation id
x is returned and the options are unchanged. -/
theorem C3_processMessage_effects_witness :
    processMessage (.str "bob") .undef
        (some { correlationId := .str "x", initiator := .undef }) "u" =
      .ok (some { correlationId := .str "x", initiator := .undef }, "x") :=
  (C3_processMessage_effects "bob" .undef
      { correlationId := .str "x", initiator := .undef } "u" (Or.inl rfl)).1 "x" rfl

/-- C4: correlation-id contract of publish and request. With a string
routing key, both resolve to exactly the supplied options.correlationId
when it is a string; when it is absent both resolve to the freshly
generated uuidv4 identifier, which is a non-empty string; a defined
non-string options.correlationId and a defined non-string
options.initiator each fail with a TypeError. -/
theorem C4_correlation_id_contract (rk : String) (msg : JsVal) (bytes : List Nat) :
    (∀ c init, init = .undef ∨ init.isString = true →
      publish (.str rk) msg (some { correlationId := .str c, initiator := init })
          (uuidv4 bytes) =
        .ok (some { correlationId := .str c, initiator := init }, c) ∧
      request (.str rk) msg (some { correlationId := .str c, initiator := init })
          (uuidv4 bytes) =
        .ok (some { correlationId := .str c, initiator := init }, c)) ∧
    (∀ init, init = .undef ∨ init.isString = true →
      publish (.str rk) msg (some { correlationId := .undef, initiator := init })
          (uuidv4 bytes) =
        .ok (some { correlationId := .str (uuidv4 bytes), initiator := init },
             uuidv4 bytes) ∧
      request (.str rk) msg (some { correlationId := .undef, initiator := init })
          (uuidv4 bytes) =
        .ok (some { correlationId := .str (uuidv4 bytes), initiator := init },
             uuidv4 bytes)) ∧
    (uuidv4 bytes ≠ "") ∧
    (∀ v init, v ≠ .undef → v.isString = false →
      publish (.str rk) msg (some { correlationId := v, initiator := init })
          (uuidv4 bytes) =
        .error (.typeError "options.correlationId should be a string.") ∧
      request (.str rk) msg (some { correlationId := v, initiator := init })
          (uuidv4 bytes) =
        .error (.typeError "options.correlationId should be a string.")) ∧
    (∀ v, v ≠ .undef → v.isString = false →
      publish (.str rk) msg (some { correlationId := .undef, initiator := v })
          (uuidv4 bytes) =
        .error (.typeError "options.initiator should be a string.") ∧
      request (.str rk) msg (some { correlationId := .undef, initiator := v })
          (uuidv4 bytes) =
        .error (.typeError "options.initiator should be a string.")) := by
  refine ⟨?_, ?_, uuidv4_ne_empty bytes, ?_, ?_⟩
  · intro c init hinit
    rcases hinit with h | h <;>
      constructor <;> simp [publish, request, processMessage, h, jsStrGet]
  · intro init hinit
    rcases hinit with h | h <;>
      constructor <;> simp [publish, request, processMessage, h, jsStrGet]
  · intro v init hne hns
    constructor <;> simp [publish, request, processMessage, hne, hns]
  · intro v hne hns
    constructor <;> simp [publish, request, processMessage, hne, hns]

/-- Witness for C4 at concrete inputs: a supplied id x is returned
exactly; with none supplied the generated uuid (here from the all-zero
byte draw) is returned and non-empty; a numeric correlation id fails
with a TypeError. -/
theorem C4_correlation_id_contract_witness :
    publish (.str "bob") .undef
        (some { correlationId := .str "x", initiator := .undef }) (uuidv4 []) =
      .ok (some { correlationId := .str "x", initiator := .undef }, "x") ∧
    publish (.str "bob") .undef
        (some { correlationId := .undef, initiator := .undef }) (uuidv4 []) =
      .ok (some { correlationId := .str (uuidv4 []), initiator := .undef }, uuidv4 []) ∧
    uuidv4 [] ≠ "" ∧
    publish (.str "bob") .undef
        (some { correlationId := .num 44444, initiator := .undef }) (uuidv4 []) =
      .error (.typeError "options.correlationId should be a string.") :=
  ⟨((C4_correlation_id_contract "bob" .undef []).1 "x" .undef (Or.inl rfl)).1,
   ((C4_correlation_id_contract "bob" .undef []).2.1 .undef (Or.inl rfl)).1,
   (C4_correlation_id_contract "bob" .undef []).2.2.1,
   ((C4_correlation_id_contract "bob" .undef []).2.2.2.1 (.num 44444) .undef
      (by decide) rfl).1⟩

/-- C5: wrapped-handler failure path. When the user callback fails, the
wrapped handler still records timing for the topic, logs the error at the
effective log level (the logLevel hint, defaulting to "error" when the
hint is absent) exactly when a logger is configured, exposes a method for
that level and the level is not the suppression value "none", and finally
re-raises the original error unchanged. -/
theorem C5_wrapped_handler_failure {α : Type} (t : Transport) (topic : String)
    (cb : JsVal → JsVal → JsVal → CallbackOutcome α)
    (msg cid init : JsVal) (start now : Int) (err : HandlerError)
    (hcb : cb msg cid init = .failure err) :
    (runWrappedHandler t topic cb msg cid init start now).timings =
      recordTiming t.timings topic start now ∧
    (runWrappedHandler t topic cb msg cid init start now).result = .error err ∧
    (err.logLevel = none → effectiveLogLevel err = "error") ∧
    (∀ lg, t.logger = some lg → effectiveLogLevel err ≠ "none" →
      effectiveLogLevel err ∈ lg.levels →
      (runWrappedHandler t topic cb msg cid init start now).logged =
        [(effectiveLogLevel err, msg, err)]) ∧
    (t.logger = none →
      (runWrappedHandler t topic cb msg cid init start now).logged = []) ∧
    (effectiveLogLevel err = "none" →
      (runWrappedHandler t topic cb msg cid init start now).logged = []) ∧
    (∀ lg, t.logger = some lg → effectiveLogLevel err ∉ lg.levels →
      (runWrappedHandler t topic cb msg cid init start now).logged = []) := by
  refine ⟨?_, ?_, ?_, ?_, ?_, ?_, ?_⟩
  · simp [runWrappedHandler, hcb]
  · simp [runWrappedHandler, hcb]
  · intro h
    simp [effectiveLogLevel, h]
  · intro lg hlg hnone hmem
    simp [runWrappedHandler, hcb, shouldLog, hlg, hnone, hmem]
  · intro h
    simp [runWrappedHandler, hcb, shouldLog, h]
  · intro h
    cases hl : t.logger <;>
      simp [runWrappedHandler, hcb, shouldLog, h, hl]
  · intro lg hlg hmem
    simp [runWrappedHandler, hcb, shouldLog, hlg, hmem]

/-- Witness for C5 at a concrete input: a failing callback with no
logLevel hint on a transport whose logger exposes an error method: timing
is recorded, the error is logged at level error and re-raised. -/
theorem C5_wrapped_handler_failure_witness :
    (runWrappedHandler
        { timings := [], listening := false, timingsResetInterval := 50,
          timingsTimeout := none, logger := some { levels := ["error"] } }
        "bob" (fun _ _ _ => CallbackOutcome.failure (α := Unit)
          { message := "boom", logLevel := none })
        .obj .undef .undef 0 4).result =
      .error { message := "boom", logLevel := none } ∧
    (runWrappedHandler
        { timings := [], listening := false, timingsResetInterval := 50,
          timingsTimeout := none, logger := some { levels := ["error"] } }
        "bob" (fun _ _ _ => CallbackOutcome.failure (α := Unit)
          { message := "boom", logLevel := none })
        .obj .undef .undef 0 4).logged =
      [("error", .obj, { message := "boom", logLevel := none })] :=
  ⟨(C5_wrapped_handler_failure
      { timings := [], listening := false, timingsResetInterval := 50,
        timingsTimeout := none, logger := some { levels := ["error"] } }
      "bob" (fun _ _ _ => CallbackOutcome.failure (α := Unit)
        { message := "boom", logLevel := none })
      .obj .undef .undef 0 4 { message := "boom", logLevel := none } rfl).2.1,
   by
    have h := (C5_wrapped_handler_failure
      { timings := [], listening := false, timingsResetInterval := 50,
        timingsTimeout := none, logger := some { levels := ["error"] } }
      "bob" (fun _ _ _ => CallbackOutcome.failure (α := Unit)
        { message := "boom", logLevel := none })
      .obj .undef .undef 0 4 { message := "boom", logLevel := none } rfl).2.2.2.1
      { levels := ["error"] } rfl (by decide) (by decide)
    simpa [effectiveLogLevel] using h⟩

/-- C6: wrapped-handler success path. addMessageListener resolves the
routing key to itself; one invocation of the wrapped handler calls the
user callback exactly once with exactly the given arguments, records
timing for the topic (a topic fresh in the table ends with
messageCount 1), and propagates the callback result unchanged. -/
theorem C6_wrapped_handler_success {α : Type} (t : Transport) (rk : String)
    (cb : JsVal → JsVal → JsVal → CallbackOutcome α)
    (msg cid init : JsVal) (start now : Int) (res : α)
    (hcb : cb msg cid init = .success res)
    (hfresh : tlookup t.timings rk = none) :
    addMessageListener (.str rk) .func = .ok rk ∧
    (runWrappedHandler t rk cb msg cid init start now).calls = [(msg, cid, init)] ∧
    (runWrappedHandler t rk cb msg cid init start now).result = .ok res ∧
    ((tlookup (runWrappedHandler t rk cb msg cid init start now).timings rk).getD
        zeroRecord).messageCount = 1 := by
  refine ⟨rfl, ?_, ?_, ?_⟩
  · simp [runWrappedHandler, hcb]
  · simp [runWrappedHandler, hcb]
  · simp only [runWrappedHandler, hcb]
    rw [tlookup_recordTiming_self, hfresh]
    simp [recordStep_messageCount, zeroRecord]

/-- Witness for C6 at a concrete input: a succeeding callback invoked
through the wrapped handler on a fresh transport. -/
theorem C6_wrapped_handler_success_witness :
    (runWrappedHandler
        { timings := [], listening := false, timingsResetInterval := 50,
          timingsTimeout := none, logger := none }
        "bob" (fun _ _ _ => CallbackOutcome.success (42 : Nat))
        .obj (.str "ggg") (.str "fff") 0 4).calls =
      [(.obj, .str "ggg", .str "fff")] ∧
    (runWrappedHandler
        { timings := [], listening := false, timingsResetInterval := 50,
          timingsTimeout := none, logger := none }
        "bob" (fun _ _ _ => CallbackOutcome.success (42 : Nat))
        .obj (.str "ggg") (.str "fff") 0 4).result = .ok 42 ∧
    ((tlookup (runWrappedHandler
        { timings := [], listening := false, timingsResetInterval := 50,
          timingsTimeout := none, logger := none }
        "bob" (fun _ _ _ => CallbackOutcome.success (42 : Nat))
        .obj (.str "ggg") (.str "fff") 0 4).timings "bob").getD
        zeroRecord).messageCount = 1 :=
  ⟨(C6_wrapped_handler_success
      { timings := [], listening := false, timingsResetInterval := 50,
        timingsTimeout := none, logger := none }
      "bob" (fun _ _ _ => CallbackOutcome.success (42 : Nat))
      .obj (.str "ggg") (.str "fff") 0 4 42 rfl rfl).2.1,
   (C6_wrapped_handler_success
      { timings := [], listening := false, timingsResetInterval := 50,
        timingsTimeout := none, logger := none }
      "bob" (fun _ _ _ => CallbackOutcome.success (42 : Nat))
      .obj (.str "ggg") (.str "fff") 0 4 42 rfl rfl).2.2.1,
   (C6_wrapped_handler_success
      { timings := [], listening := false, timingsResetInterval := 50,
        timingsTimeout := none, logger := none }
      "bob" (fun _ _ _ => CallbackOutcome.success (42 : Nat))
      .obj (.str "ggg") (.str "fff") 0 4 42 rfl rfl).2.2.2⟩

/-- C7: lifecycle and reset timer. listen sets the listening flag,
immediately clears the timing table and arms the periodic reset timer
with delay timingsResetInterval; each firing of the pending timer clears
the table and re-arms (again with that delay) exactly when still
listening; a firing is only possible while a timer is pending; and
disconnect always succeeds - also on a fresh, never-connected or already
disconnected instance - leaving listening false, cancelling any pending
timer so that no further firing is possible until listen is called
again. -/
theorem C7_lifecycle_reset_timer (t : Transport) :
    (t.listen.listening = true ∧ t.listen.timings = [] ∧
      t.listen.timingsTimeout = some t.timingsResetInterval) ∧
    (∀ t2, fireResetTimer t = some t2 →
      t2.timings = [] ∧
      t2.timingsTimeout = if t.listening then some t.timingsResetInterval else none) ∧
    (t.timingsTimeout = none → fireResetTimer t = none) ∧
    (∃ t2, t.disconnect = .ok t2 ∧ t2.listening = false ∧
      t2.timingsTimeout = none ∧ fireResetTimer t2 = none) := by
  refine ⟨⟨rfl, ?_, ?_⟩, ?_, ?_, ?_⟩
  · simp [Transport.listen, Transport.resetTimings]
  · simp [Transport.listen, Transport.resetTimings]
  · intro t2 h2
    cases hp : t.timingsTimeout with
    | none => simp [fireResetTimer, hp] at h2
    | some d =>
        simp only [fireResetTimer, hp, Option.some.injEq] at h2
        subst h2
        cases hl : t.listening <;>
          simp [Transport.resetTimings, hl]
  · intro h
    simp [fireResetTimer, h]
  · exact ⟨{ t with listening := false, timingsTimeout := none },
      rfl, rfl, rfl, rfl⟩

/-- Witness for C7 at concrete inputs: firing is disabled on a fresh
instance with no pending timer, and a pending timer on a listening
instance fires into a cleared, re-armed state. -/
theorem C7_lifecycle_reset_timer_witness :
    fireResetTimer { timings := [], listening := false, timingsResetInterval := 50,
                     timingsTimeout := none, logger := none } = none ∧
    ({ timings := [], listening := true, timingsResetInterval := 50,
       timingsTimeout := some 50, logger := none } : Transport).timings = [] ∧
    ({ timings := [], listening := true, timingsResetInterval := 50,
       timingsTimeout := some 50, logger := none } : Transport).timingsTimeout =
      if true then some (50 : Int) else none :=
  ⟨(C7_lifecycle_reset_timer
      { timings := [], listening := false, timingsResetInterval := 50,
        timingsTimeout := none, logger := none }).2.2.1 rfl,
   ((C7_lifecycle_reset_timer
      { timings := [("t", zeroRecord)], listening := true, timingsResetInterval := 50,
        timingsTimeout := some 50, logger := none }).2.1
      { timings := [], listening := true, timingsResetInterval := 50,
        timingsTimeout := some 50, logger := none } rfl).1 ▸ rfl,
   ((C7_lifecycle_reset_timer
      { timings := [("t", zeroRecord)], listening := true, timingsResetInterval := 50,
        timingsTimeout := some 50, logger := none }).2.1
      { timings := [], listening := true, timingsResetInterval := 50,
        timingsTimeout := some 50, logger := none } rfl).2⟩

/-- C8 counterexample: the negative integer -1 is not a non-negative
integer, yet construction succeeds (the guard only checks
Number.isInteger) and stores -1 as the interval. -/
theorem C8_counterexample :
    Transport.construct (some { timingsResetInterval := .num (-1), logger := none }) =
      .ok { timings := [], listening := false, timingsResetInterval := -1,
            timingsTimeout := none, logger := none } := by
  rfl

/-- C8 amended: construction validation. Construction succeeds for every
integer timingsResetInterval, negative ones included; the exact value is
observable whenever it is non-zero, while the falsy value 0 is replaced
by the package default through the || fallback; a defined value that is
not an integer fails with a TypeError; and an absent option (or absent
options object) uses the package default. -/
theorem C8_construction_validation (lg : Option Logger) :
    (∀ n : Int, n ≠ 0 →
      Transport.construct (some { timingsResetInterval := .num n, logger := lg }) =
        .ok { timings := [], listening := false, timingsResetInterval := n,
              timingsTimeout := none, logger := lg }) ∧
    (Transport.construct (some { timingsResetInterval := .num 0, logger := lg }) =
      .ok { timings := [], listening := false,
            timingsResetInterval := defaults_timingsResetInterval,
            timingsTimeout := none, logger := lg }) ∧
    (∀ v, v ≠ .undef → v.isInteger = false →
      Transport.construct (some { timingsResetInterval := v, logger := lg }) =
        .error (.typeError "options.timingsResetInterval should be a number.")) ∧
    (Transport.construct none =
      .ok { timings := [], listening := false,
            timingsResetInterval := defaults_timingsResetInterval,
            timingsTimeout := none, logger := none }) ∧
    (Transport.construct (some { timingsResetInterval := .undef, logger := lg }) =
      .ok { timings := [], listening := false,
            timingsResetInterval := defaults_timingsResetInterval,
            timingsTimeout := none, logger := lg }) := by
  refine ⟨?_, ?_, ?_, ?_, ?_⟩
  · intro n hn
    simp [Transport.construct, JsVal.isInteger, jsNumOr, hn]
  · simp [Transport.construct, JsVal.isInteger, jsNumOr]
  · intro v hne hni
    simp [Transport.construct, hne, hni]
  · rfl
  · rfl

/-- Witness for C8 amended at concrete inputs: 100 is accepted and
observable, the string value bob is rejected with a TypeError. -/
theorem C8_construction_validation_witness :
    Transport.construct (some { timingsResetInterval := .num 100, logger := none }) =
      .ok { timings := [], listening := false, timingsResetInterval := 100,
            timingsTimeout := none, logger := none } ∧
    Transport.construct (some { timingsResetInterval := .str "bob", logger := none }) =
      .error (.typeError "options.timingsResetInterval should be a number.") :=
  ⟨(C8_construction_validation none).1 100 (by decide),
   (C8_construction_validation none).2.2.1 (.str "bob") (by decide) rfl⟩

/-- C9: handler removal forgets timing. removeMessageListener with a
string routing key removes exactly the resolved topic from the timing
table, leaves every other topic unchanged, is a no-op without error when
no record exists for that topic, and fails with a TypeError on a
non-string routing key. -/
theorem C9_remove_listener_forgets_timing (t : Transport) (rk : String) :
    (Transport.removeMessageListener t (.str rk) =
      .ok { t with timings := terase t.timings rk }) ∧
    (tlookup (terase t.timings rk) rk = none) ∧
    (∀ k, k ≠ rk → tlookup (terase t.timings rk) k = tlookup t.timings k) ∧
    (tlookup t.timings rk = none →
      Transport.removeMessageListener t (.str rk) = .ok t) ∧
    (∀ v, v.isString = false →
      Transport.removeMessageListener t v =
        .error (.typeError "routingKey should be a string.")) := by
  refine ⟨rfl, ?_, ?_, ?_, ?_⟩
  · simp [tlookup_terase]
  · intro k hk
    simp [tlookup_terase, hk]
  · intro h
    show Except.ok { t with timings := terase t.timings rk } = Except.ok t
    rw [terase_of_absent t.timings rk h]
  · intro v hv
    cases v <;> simp_all [Transport.removeMessageListener]

/-- Witness for C9 at concrete inputs: removing topic bob deletes its
record, leaves topic carl alone, and a numeric routing key is
rejected. -/
theorem C9_remove_listener_forgets_timing_witness :
    tlookup (terase [("bob", zeroRecord), ("carl", zeroRecord)] "bob") "bob" = none ∧
    tlookup (terase [("bob", zeroRecord), ("carl", zeroRecord)] "bob") "carl" =
      tlookup [("bob", zeroRecord), ("carl", zeroRecord)] "carl" ∧
    Transport.removeMessageListener
        { timings := [("bob", zeroRecord), ("carl", zeroRecord)], listening := false,
          timingsResetInterval := 50, timingsTimeout := none, logger := none }
        (.num 35353535) =
      .error (.typeError "routingKey should be a string.") :=
  ⟨(C9_remove_listener_forgets_timing
      { timings := [("bob", zeroRecord), ("carl", zeroRecord)], listening := false,
        timingsResetInterval := 50, timingsTimeout := none, logger := none } "bob").2.1,
   (C9_remove_listener_forgets_timing
      { timings := [("bob", zeroRecord), ("carl", zeroRecord)], listening := false,
        timingsResetInterval := 50, timingsTimeout := none, logger := none } "bob").2.2.1
      "carl" (by decide),
   (C9_remove_listener_forgets_timing
      { timings := [("bob", zeroRecord), ("carl", zeroRecord)], listening := false,
        timingsResetInterval := 50, timingsTimeout := none, logger := none } "bob").2.2.2.2
      (.num 35353535) rfl⟩
